import Mathlib

/-!
Shallow embedding of `src/generate.js` (carterdea/populate_shopify), a
command-line seeding script that creates fake products in a Shopify store
through the GraphQL Admin API, and proofs of the specification claims about
it.  Network responses, the random source (faker), and the process
environment are modelled as explicit parameters; the functions below mirror
the corresponding JavaScript functions line by line.
-/

namespace PopulateShopify

/-! ## Fake data generation (`generateProductData`, lines 117-150) -/

/-- The fixed tag vocabulary passed to `faker.helpers.arrayElements`
(line 125 of `generate.js`). -/
def tagVocabulary : List String := ["New", "Featured", "Limited", "Sale"]

/-- One draw of `faker.helpers.arrayElements(tagVocabulary, 2)`: two
positions in the four-element vocabulary, chosen without replacement, which
is exactly what `arrayElements` guarantees (a random subset of the requested
size).  The `distinct` field records the without-replacement contract of the
random source, not a property of the script. -/
structure FakerTagChoice where
  fst : Fin 4
  snd : Fin 4
  distinct : fst ≠ snd

/-- The element of the vocabulary at a chosen position. -/
def vocabElem (i : Fin 4) : String :=
  tagVocabulary.get (Fin.cast (by rfl) i)

/-- One complete set of faker draws consumed by a single
`generateProductData` call: `faker.commerce.productName()`,
`faker.commerce.productDescription()`, `faker.company.name()`,
`faker.commerce.department()` and the two-tag choice. -/
structure FakerDraw where
  title : String
  description : String
  vendor : String
  productType : String
  tagChoice : FakerTagChoice

/-- The `productData` object built by `generateProductData`
(lines 130-147).  `productPublications` carries the publication id and the
`new Date().toISOString()` timestamp when a publication id was supplied. -/
structure ProductDraft where
  title : String
  descriptionHtml : String
  vendor : String
  productType : String
  tags : List String
  status : String
  productPublications : Option (String × String)
deriving DecidableEq

/-- Embedding of `generateProductData(_index, includeTestTag, publicationId)`
(lines 117-150).  The faker draws and the current timestamp are explicit
parameters.  `randomTags` is the two-element draw from the vocabulary;
`test_product` is appended exactly when `includeTestTag` is set (line 128);
the publication block is attached exactly when a publication id was passed
(lines 140-147). -/
def generateProductData (fk : FakerDraw) (includeTestTag : Bool)
    (publicationId : Option String) (now : String) : ProductDraft :=
  let randomTags := [vocabElem fk.tagChoice.fst, vocabElem fk.tagChoice.snd]
  let tags := if includeTestTag then randomTags ++ ["test_product"] else randomTags
  { title := fk.title
    descriptionHtml := "<p>" ++ fk.description ++ "</p>"
    vendor := fk.vendor
    productType := fk.productType
    tags := tags
    status := "ACTIVE"
    productPublications := publicationId.map (fun pid => (pid, now)) }

/-! ## Round partition of the batched loop (lines 414-421)

The batched path runs `for (let i = 1; i <= total; i += batchSize)` and each
round builds `Math.min(batchSize, total - i + 1)` drafts.  `roundSizesFrom`
is that loop with the running index `i` explicit; `roundSizes` starts it at
`i = 1` as the source does.  (For `W = 0` the JavaScript loop would never
terminate; the guard returns `[]` there, and every theorem below assumes
`0 < W`, which the script's own batch-size validation enforces.) -/

def roundSizesFrom (total W i : ℕ) : List ℕ :=
  if _h : 0 < W ∧ i ≤ total then
    min W (total - i + 1) :: roundSizesFrom total W (i + W)
  else []
termination_by total + 1 - i
decreasing_by omega

/-- The sequence of per-round draft counts of the batched loop. -/
def roundSizes (total W : ℕ) : List ℕ := roundSizesFrom total W 1

/-! ## Observable action traces of the two main-loop paths (lines 410-492)

For the width-1 refinement claim, the observable actions named by the spec
are the product-creation HTTP call, the image-attachment HTTP call, and the
pacing delay.  A creation call records the product indices its GraphQL
document covers (a single index on the sequential path, a whole round on the
batched path).  `ok i` abstracts whether product `i`'s creation succeeded,
which decides whether its image call is issued; the publication lookup is
modelled separately (see the memoization section). -/

inductive Action where
  | createCall (indices : List ℕ)
  | imageCall (index : ℕ)
  | pause (ms : ℕ)
deriving DecidableEq

/-- Sequential path (lines 476-491): for `i = 1 .. total`, `createProduct`
issues one create call, then one image call if the create succeeded
(line 322 runs only after a successful create), and the loop then awaits
`delay(600)` whenever `i < total` (line 488). -/
def seqTraceFrom (total : ℕ) (ok : ℕ → Bool) (i : ℕ) : List Action :=
  if _h : i ≤ total then
    (Action.createCall [i] :: (if ok i then [Action.imageCall i] else []))
      ++ (if i < total then [Action.pause 600] else [])
      ++ seqTraceFrom total ok (i + 1)
  else []
termination_by total + 1 - i
decreasing_by omega

def seqTrace (total : ℕ) (ok : ℕ → Bool) : List Action :=
  seqTraceFrom total ok 1

/-- Batched path (lines 414-473): each round issues one create call for its
whole index range, then the image calls of that round's successes, and no
pacing delay at all (line 472: the source comments the delay away). -/
def batchedTraceFrom (total W : ℕ) (ok : ℕ → Bool) (i : ℕ) : List Action :=
  if _h : 0 < W ∧ i ≤ total then
    (Action.createCall (List.range' i (min W (total - i + 1)))
        :: ((List.range' i (min W (total - i + 1))).filter ok).map Action.imageCall)
      ++ batchedTraceFrom total W ok (i + W)
  else []
termination_by total + 1 - i
decreasing_by omega

def batchedTrace (total W : ℕ) (ok : ℕ → Bool) : List Action :=
  batchedTraceFrom total W ok 1

/-- Predicate singling out the pacing delay among observable actions. -/
def isPause : Action → Bool
  | .pause _ => true
  | _ => false

/-! ## Publication-id lookup (`getOnlineStorePublicationId`, lines 83-115)

The module-level mutable `onlineStorePublicationId` plus the number of
publications queries actually sent over the network.  `env q` is the
response to the `q`-th query issued in the run. -/

/-- One `{node {id name}}` edge of the publications query response. -/
structure Publication where
  id : String
  name : String
deriving DecidableEq

/-- Outcome of one publications query: transport failure (the catch at
line 111) or the list of publication edges. -/
inductive LookupResponse where
  | transportError
  | publications (edges : List Publication)

/-- The script's lookup state: the memo variable `onlineStorePublicationId`
(line 83) and how many publications queries have been issued so far. -/
structure PubState where
  cached : Option String
  queriesIssued : ℕ
deriving DecidableEq

/-- Embedding of `getOnlineStorePublicationId()` (lines 85-115).  A set memo
returns immediately (line 86).  Otherwise one query is issued; on transport
error the function returns `null` and caches nothing; on a response it
caches and returns the id of the edge named `Online Store` if one exists,
and otherwise returns the still-`null` memo, again caching nothing. -/
def getOnlineStorePublicationId (env : ℕ → LookupResponse) (st : PubState) :
    Option String × PubState :=
  match st.cached with
  | some v => (some v, st)
  | none =>
    let st' : PubState := { st with queriesIssued := st.queriesIssued + 1 }
    match env st.queriesIssued with
    | .transportError => (none, st')
    | .publications edges =>
      match edges.find? (fun p => p.name == "Online Store") with
      | some pub => (some pub.id, { st' with cached := some pub.id })
      | none => (none, st')

/-- The lookup state after the sequential path has run `n` products: each
`createProduct` call starts by calling `getOnlineStorePublicationId`
(line 277). -/
def seqPubStateAfter (env : ℕ → LookupResponse) : ℕ → PubState
  | 0 => { cached := none, queriesIssued := 0 }
  | n + 1 => (getOnlineStorePublicationId env (seqPubStateAfter env n)).2

/-- The batched path resolves the publication id exactly once before its
loop (line 412) and passes the value into every draft, so its query count is
whatever that single call issues. -/
def batchedPubQueries (env : ℕ → LookupResponse) : ℕ :=
  ((getOnlineStorePublicationId env { cached := none, queriesIssued := 0 }).2).queriesIssued

/-- Whether a lookup response lets the script resolve the Online Store
publication id. -/
def resolvesOnlineStore : LookupResponse → Bool
  | .transportError => false
  | .publications edges => (edges.find? (fun p => p.name == "Online Store")).isSome

/-! ## Batch submission (`createProductBatch`, lines 201-273)

One aliased slot of the batched mutation's response: the object
`data[product_i]`, holding the created product (or `null`) and the
per-slot `userErrors` list. -/

/-- The `product { id title handle }` selection of a successful aliased
create. -/
structure ProductInfo where
  id : String
  title : String
  handle : String
deriving DecidableEq

/-- One aliased result object in the response's `data`: `product` may be
`null`, and `userErrors` is a list of `{field, message}` pairs. -/
structure SlotData where
  product : Option ProductInfo
  userErrors : List (String × String)
deriving DecidableEq

/-- The outcome of one batched submission HTTP call:
either the transport layer failed (axios threw, caught at line 266), or a
response envelope arrived, with an optional document-level `errors` array
(present means the `if (errors)` test at line 236 fires, even for an empty
array) and a `data` object mapping slot number `i` to the aliased result
`product_i` (absent aliases are `none`). -/
inductive BatchCallResult where
  | transportError
  | response (errors : Option (List String)) (slots : ℕ → Option SlotData)

/-- One element of the list returned by `createProductBatch`: the source
pushes `{success: true, product, input, index}` or `{success: false, index}`
(lines 250-261); the catch branch maps inputs to `{success: false, index}`
(line 271). -/
structure BatchResult where
  success : Bool
  product : Option ProductInfo
  index : ℕ
deriving DecidableEq

/-- Embedding of `createProductBatch(batchInputs, startIndex)`
(lines 201-273).  Only the length of `batchInputs` matters for the result
shape, so it is passed as `numInputs`.  On a transport error the catch
branch returns one failure record per input; on a document-level `errors`
array the function returns the empty list (line 241); otherwise each slot
becomes a success record exactly when its aliased result object is present
with an empty `userErrors` list (line 249). -/
def createProductBatch (resp : BatchCallResult) (numInputs startIndex : ℕ) :
    List BatchResult :=
  match resp with
  | .transportError =>
    (List.range numInputs).map
      (fun i => { success := false, product := none, index := startIndex + i })
  | .response errors slots =>
    if errors.isSome then []
    else
      (List.range numInputs).map (fun i =>
        match slots i with
        | some sd =>
          if sd.userErrors = [] then
            { success := true, product := sd.product, index := startIndex + i }
          else
            { success := false, product := none, index := startIndex + i }
        | none => { success := false, product := none, index := startIndex + i })

/-- The number of results of a round that the main loop counts as successes
(the `successCount++` branch, line 438). -/
def tallySucc (rs : List BatchResult) : ℕ := rs.countP (fun r => r.success)

/-- The number of results of a round that the main loop counts as failures
(the `failureCount++` branch, line 440). -/
def tallyFail (rs : List BatchResult) : ℕ := rs.countP (fun r => !r.success)

/-- The batched main loop (lines 414-473) restricted to its tally effect:
`for (let i = 1; i <= total; i += batchSize)`, each round submitting
`min(batchSize, total - i + 1)` inputs through `createProductBatch` and
incrementing `successCount`/`failureCount` once per element of the returned
result list.  `env k` is the network outcome of round `k`; `s`/`f` are the
tallies accumulated so far.  Image uploads never touch the two counters, so
they are omitted here. -/
def runBatchedTallyFrom (total W : ℕ) (env : ℕ → BatchCallResult)
    (k i s f : ℕ) : ℕ × ℕ :=
  if _h : 0 < W ∧ i ≤ total then
    let results := createProductBatch (env k) (min W (total - i + 1)) i
    runBatchedTallyFrom total W env (k + 1) (i + W)
      (s + tallySucc results) (f + tallyFail results)
  else (s, f)
termination_by total + 1 - i
decreasing_by omega

/-- The final `(successCount, failureCount)` pair of a batched run. -/
def runBatchedTally (total W : ℕ) (env : ℕ → BatchCallResult) : ℕ × ℕ :=
  runBatchedTallyFrom total W env 0 1 0 0

/-! ## Command-line parsing (lines 344-391)

JavaScript's `parseInt` (radix 10, as applied to the plain numeric
arguments this script receives): skip leading whitespace, accept an
optional sign, read the longest leading digit run, and yield NaN (`none`
here) when no digit is read.  (The `0x` hexadecimal form of bare `parseInt`
is not exercised by this CLI surface and is not modelled.) -/

def jsParseIntDigits (cs : List Char) : Option ℕ :=
  let ds := cs.takeWhile Char.isDigit
  if ds.isEmpty then none
  else some (ds.foldl (fun acc c => acc * 10 + (c.toNat - 48)) 0)

def jsParseInt (s : String) : Option Int :=
  let cs := s.data.dropWhile Char.isWhitespace
  match cs with
  | '-' :: rest => (jsParseIntDigits rest).map (fun n => -(n : Int))
  | '+' :: rest => (jsParseIntDigits rest).map (fun n => (n : Int))
  | _ => (jsParseIntDigits cs).map (fun n => (n : Int))

/-- The `arg.startsWith("--")` test of line 355. -/
def startsWithDashDash (a : String) : Bool :=
  match a.data with
  | '-' :: '-' :: _ => true
  | _ => false

/-- `args.find((arg) => !arg.startsWith("--"))` (line 355). -/
def findPositional (args : List String) : Option String :=
  args.find? (fun a => !(startsWithDashDash a))

/-- `const total = parseInt(args.find(...)) || 100` (line 355): `parseInt`
of a missing argument or of a non-numeric string is NaN, which is falsy, and
a parsed `0` is falsy too — all three fall back to `100`.  Any other parsed
value (including a negative one) is used as-is. -/
def parseTotalArg (positional : Option String) : Int :=
  match positional with
  | none => 100
  | some s =>
    match jsParseInt s with
    | none => 100
    | some n => if n = 0 then 100 else n

/-- The `arg.startsWith("--batch-size=")` test of line 350. -/
def isBatchSizeArg (a : String) : Bool :=
  "--batch-size=".data.isPrefixOf a.data

/-- The `arg.split("=")[1]` of line 352: the characters after the first
`=`. -/
def afterEq (a : String) : String :=
  String.mk (((a.data).dropWhile (fun c => c != '=')).drop 1)

/-- `batchSize` after lines 349-353: default 10, overridden by the parsed
`--batch-size=` value when such an argument is present (`none` models NaN
from a non-numeric value). -/
def parsedBatchSize (args : List String) : Option Int :=
  match args.find? (fun a => isBatchSizeArg a) with
  | none => some 10
  | some a => jsParseInt (afterEq a)

/-- The batch-size validation of lines 386-391: an integer in `[1, 100]`
(`Number.isInteger(NaN)` is false, so NaN fails it). -/
def batchSizeValid (args : List String) : Bool :=
  match parsedBatchSize args with
  | some n => decide (1 ≤ n) && decide (n ≤ 100)
  | none => false

def batchWidthOf (args : List String) : ℕ :=
  match parsedBatchSize args with
  | some n => n.toNat
  | none => 0

/-! ## Image attachment (`addImageToProduct`, lines 152-199) -/

/-- The `x || y` fallback JavaScript applies to numeric cost telemetry:
`0` (and NaN, modelled as an absent field) falls through to the
alternative. -/
def jsOrNat (a b : ℕ) : ℕ := if a = 0 then b else a

/-- Cost extraction of lines 180-182: first parseable cost header, then the
alternate-case header, then `extensions?.cost?.actualQueryCost`, then `0`.
A `none` models a missing field (or an unparseable header, whose `parseInt`
is NaN — falsy, like an extracted `0`). -/
def imageCostOf (h1 h2 ext : Option ℕ) : ℕ :=
  jsOrNat (h1.getD 0) (jsOrNat (h2.getD 0) (ext.getD 0))

/-- The `{success, cost}` record every `addImageToProduct` path returns. -/
structure ImageCallResult where
  success : Bool
  cost : ℕ
deriving DecidableEq

/-- The outcome of one media-creation HTTP call: transport failure (caught
at line 195), or a response envelope with an optional document-level
`errors` array, an optional `productCreateMedia.mediaUserErrors` list
(`none` models a missing/null `data.productCreateMedia`, whose dereference
at line 189 throws and lands in the same catch), and the three candidate
cost fields. -/
inductive ImageResponse where
  | transportError
  | response (errors : Option (List String))
      (mediaUserErrors : Option (List (String × String)))
      (headerCost1 headerCost2 extCost : Option ℕ)

/-- Embedding of `addImageToProduct(productId, imageUrl, title)`
(lines 152-199).  Every path returns a `{success, cost}` record object —
never a boolean and never null. -/
def addImageToProduct : ImageResponse → ImageCallResult
  | .transportError => { success := false, cost := 0 }
  | .response errors mue h1 h2 ext =>
    let imageCost := imageCostOf h1 h2 ext
    match errors with
    | some _ => { success := false, cost := imageCost }
    | none =>
      match mue with
      | none => { success := false, cost := 0 }
      | some us =>
        if us = [] then { success := true, cost := imageCost }
        else { success := false, cost := imageCost }

/-- The JavaScript values relevant to the `if (imageAdded)` truthiness test
at line 324: a boolean, null/undefined, or the record object
`addImageToProduct` actually returns. -/
inductive JsVal where
  | boolean (b : Bool)
  | nullish
  | obj (r : ImageCallResult)
deriving DecidableEq

/-- JavaScript truthiness for those values: every object is truthy. -/
def truthy : JsVal → Bool
  | .boolean b => b
  | .nullish => false
  | .obj _ => true

/-! ## Concurrent image fan-out of the batched path (lines 444-470) -/

/-- One element of `imageJobs` (lines 432-437). -/
structure ImageJob where
  productId : String
  imageUrl : String
  title : String
  index : ℕ
deriving DecidableEq

/-- How one promise of the fan-out settles: fulfilled with a value, or
rejected.  `Promise.allSettled` (line 447) waits for every one and never
short-circuits on a rejection. -/
inductive Settled (α : Type) where
  | fulfilled (value : α)
  | rejected
deriving DecidableEq

/-- `imageJobs.map(job => addImageToProduct(...))` (line 448): one call is
launched per job, and `allSettled` collects their outcomes positionally. -/
def imageFanout (jobs : List ImageJob)
    (settle : ImageJob → Settled ImageCallResult) : List (Settled ImageCallResult) :=
  jobs.map settle

/-- Line 457: a fulfilled promise contributes its value, a rejected one is
replaced by `{success: false, cost: 0}`. -/
def settledImageData : Settled ImageCallResult → ImageCallResult
  | .fulfilled v => v
  | .rejected => { success := false, cost := 0 }

/-- The per-round aggregation of lines 453-467: `totalImageCost` sums
`imageData.cost || 0` over every settled outcome and `imageSuccessCount`
counts the successful ones. -/
def collectImageRound (outcomes : List (Settled ImageCallResult)) : ℕ × ℕ :=
  outcomes.foldl
    (fun acc o =>
      let d := settledImageData o
      (acc.1 + jsOrNat d.cost 0, if d.success then acc.2 + 1 else acc.2))
    (0, 0)

/-! ## Image URLs (line 284 sequential, line 431 batched) -/

/-- `https://picsum.photos/seed/SEED/400/400.jpg` for a drawn seed token. -/
def imageUrlOf (seed : String) : String :=
  "https://picsum.photos/seed/" ++ seed ++ "/400/400.jpg"

/-- The image URLs of a run of `T` products: product `k` (0-based here)
uses the `k`-th token the random source produces, because both paths draw
`faker.string.alphanumeric(8)` freshly for each product (line 283
sequential, line 430 batched). -/
def seqImageUrls (T : ℕ) (seeds : ℕ → String) : List String :=
  (List.range T).map (fun k => imageUrlOf (seeds k))

/-! ## The sequential path and the whole program (lines 275-337, 404-506) -/

/-- The outcome of one sequential `productCreate` HTTP call: transport
failure (caught at line 330), or an envelope with optional document-level
`errors` and an optional `productCreate` payload (`none` models missing
data, whose dereference throws into the same catch). -/
inductive CreateResponse where
  | transportError
  | response (errors : Option (List String)) (productCreate : Option SlotData)

/-- Whether `createProduct` (lines 275-337) returns `true` for a given
create response: every thrown or reported error path returns `false`
(document-level errors at line 308, user errors at line 316, any exception
— including dereferencing a null product — via the catch at line 330); a
created product returns `true` regardless of how its image call went. -/
def createProductSucceeds (resp : CreateResponse) : Bool :=
  match resp with
  | .transportError => false
  | .response errors pc =>
    if errors.isSome then false
    else
      match pc with
      | none => false
      | some sd =>
        if sd.userErrors = [] then
          match sd.product with
          | none => false
          | some _ => true
        else false

/-- The `Created: ... with image` / `but image failed` log line of
lines 324-328: `none` when no product was created (no such line is
printed), otherwise `some b` with `b` true for the `with image` variant —
which is chosen by the truthiness of `addImageToProduct`'s return value. -/
def createProductLoggedWithImage (resp : CreateResponse) (img : ImageResponse) :
    Option Bool :=
  match resp with
  | .transportError => none
  | .response errors pc =>
    if errors.isSome then none
    else
      match pc with
      | none => none
      | some sd =>
        if sd.userErrors = [] then
          match sd.product with
          | none => none
          | some _ => some (truthy (JsVal.obj (addImageToProduct img)))
        else none

/-- All network outcomes a run can observe: `lookups q` answers the `q`-th
publications query, `batchCalls k` the round-`k` batched submission,
`createCalls i` the sequential create of product `i`, and `imageCalls i`
its image attachment. -/
structure World where
  lookups : ℕ → LookupResponse
  batchCalls : ℕ → BatchCallResult
  createCalls : ℕ → CreateResponse
  imageCalls : ℕ → ImageResponse

/-- The sequential loop's tally (lines 476-491): one success or failure per
product, decided by `createProduct`'s boolean result. -/
def runSequentialTally (T : ℕ) (w : World) : ℕ × ℕ :=
  (List.range' 1 T).foldl
    (fun acc i =>
      if createProductSucceeds (w.createCalls i) then (acc.1 + 1, acc.2)
      else (acc.1, acc.2 + 1))
    (0, 0)

/-- The main IIFE's tally, batched or sequential (lines 410-492). -/
def runTally (args : List String) (w : World) (total : ℕ) : ℕ × ℕ :=
  if args.contains "--batch" then
    runBatchedTally total (batchWidthOf args) w.batchCalls
  else runSequentialTally total w

/-- Whether the two required environment variables are set (line 7). -/
structure StartupEnv where
  shopSet : Bool
  tokenSet : Bool
deriving DecidableEq

/-- How a process invocation ends: an explicit `process.exit(code)` during
startup; the event loop draining after the IIFE finishes, which exits with
status 0 and the final printed tally; or a crash — an exception thrown in
the IIFE outside every try/catch rejects the IIFE's promise, and on the
Node versions this repository requires (≥ 18) an unhandled rejection
terminates the process with status 1. -/
inductive ExitOutcome where
  | exited (code : ℕ)
  | completed (total : ℕ) (tally : ℕ × ℕ)
  | crashed
deriving DecidableEq

def exitCode : ExitOutcome → ℕ
  | .exited c => c
  | .completed _ _ => 0
  | .crashed => 1

/-- Whether processing a round's result list throws in the batched main
loop: for every result flagged `success`, line 433 dereferences
`result.product.id` (and line 435 `result.product.title`) while building
the image job, outside any try/catch — a success record whose `product` is
null throws a TypeError there. -/
def resultsCrash (rs : List BatchResult) : Bool :=
  rs.any (fun r => r.success && r.product.isNone)

/-- Whether the batched loop (lines 414-473) crashes in some round it
executes: the loop runs round by round and dies at the first round whose
results contain a null-product success, so the run crashes exactly when
such a round exists among the rounds the loop would reach. -/
def runBatchedCrashesFrom (total W : ℕ) (env : ℕ → BatchCallResult)
    (k i : ℕ) : Bool :=
  if _h : 0 < W ∧ i ≤ total then
    (resultsCrash (createProductBatch (env k) (min W (total - i + 1)) i)
      || runBatchedCrashesFrom total W env (k + 1) (i + W))
  else false
termination_by total + 1 - i
decreasing_by omega

def runBatchedCrashes (total W : ℕ) (env : ℕ → BatchCallResult) : Bool :=
  runBatchedCrashesFrom total W env 0 1

/-- The whole script, in source order: missing env vars exit 1 (line 14);
`--help`/`-h` exits 0 (line 377); a non-positive computed total exits 1
(line 382; `Number.isInteger` cannot fail because `parseInt` either yields
an integer or NaN, and NaN was already replaced by 100); an invalid batch
size with `--batch` exits 1 (line 389); otherwise the IIFE runs.  Inside
the IIFE every network call catches its own errors (lines 111, 195, 266,
330) and `Promise.allSettled` never rejects; the one uncaught path is the
batched loop's `result.product.id` dereference (line 433), which runs
outside any try/catch — a round result flagged success with a null product
throws there, the IIFE's promise rejection is unhandled, and the process
dies with a non-zero status (`crashed`).  Sequential runs and crash-free
batched runs complete the loop and exit 0 with the tally. -/
def programOutcome (se : StartupEnv) (args : List String) (w : World) : ExitOutcome :=
  if !(se.shopSet && se.tokenSet) then .exited 1
  else if args.contains "--help" || args.contains "-h" then .exited 0
  else
    let total := parseTotalArg (findPositional args)
    if total ≤ 0 then .exited 1
    else if args.contains "--batch" && !batchSizeValid args then .exited 1
    else if args.contains "--batch"
        && runBatchedCrashes total.toNat (batchWidthOf args) w.batchCalls then .crashed
    else .completed total.toNat (runTally args w total.toNat)

/-- The startup checks that allow the generation loop to run at all. -/
def startupAccepts (se : StartupEnv) (args : List String) : Bool :=
  (se.shopSet && se.tokenSet)
    && !(args.contains "--help" || args.contains "-h")
    && decide (0 < parseTotalArg (findPositional args))
    && (!(args.contains "--batch") || batchSizeValid args)

/-- A world in which every network call fails at the transport layer; used
to instantiate run-independence statements. -/
def adversarialWorld : World :=
  { lookups := fun _ => .transportError
    batchCalls := fun _ => .transportError
    createCalls := fun _ => .transportError
    imageCalls := fun _ => .transportError }

/-- A world whose batched create responses flag every slot as created —
empty `userErrors` — while carrying a null `product` object, the shape that
trips the uncaught dereference at line 433. -/
def nullProductWorld : World :=
  { lookups := fun _ => .transportError
    batchCalls := fun _ =>
      .response none (fun _ => some { product := none, userErrors := [] })
    createCalls := fun _ => .transportError
    imageCalls := fun _ => .transportError }

/-! ## Theorems -/

theorem roundSizesFrom_eq_cons {total W i : ℕ} (hW : 0 < W) (hi : i ≤ total) :
    roundSizesFrom total W i =
      min W (total - i + 1) :: roundSizesFrom total W (i + W) := by
  rw [roundSizesFrom]
  exact dif_pos ⟨hW, hi⟩

theorem roundSizesFrom_eq_nil {total W i : ℕ} (h : ¬(0 < W ∧ i ≤ total)) :
    roundSizesFrom total W i = [] := by
  rw [roundSizesFrom]
  exact dif_neg h

theorem roundSizesFrom_sum_length (W : ℕ) (hW : 0 < W) :
    ∀ n total i, total + 1 - i ≤ n →
      (roundSizesFrom total W i).sum = total + 1 - i ∧
      (roundSizesFrom total W i).length = (total + 1 - i + W - 1) / W := by
  intro n
  induction n with
  | zero =>
    intro total i hn
    rw [roundSizesFrom_eq_nil (by omega)]
    have h0 : total + 1 - i = 0 := by omega
    rw [h0]
    refine ⟨by simp, ?_⟩
    simp only [List.length_nil]
    exact (Nat.div_eq_of_lt (by omega)).symm
  | succ m ih =>
    intro total i hn
    by_cases hcond : 0 < W ∧ i ≤ total
    · rw [roundSizesFrom_eq_cons hcond.1 hcond.2]
      have hrec := ih total (i + W) (by omega)
      have hsum := hrec.1
      have hlen := hrec.2
      constructor
      · simp only [List.sum_cons, hsum]
        omega
      · simp only [List.length_cons, hlen]
        have h1 : total + 1 - (i + W) = (total + 1 - i) - W := by omega
        have h2 : total + 1 - i + W - 1 = ((total + 1 - i) - 1) + W := by omega
        rw [h1, h2]
        rcases Nat.lt_or_ge (total + 1 - i) (W + 1) with hlt | hge
        · have h3 : total + 1 - i - W = 0 := by omega
          rw [h3]
          rw [Nat.add_div_right _ hW]
          have h4 : (0 + W - 1) / W = 0 := Nat.div_eq_of_lt (by omega)
          rw [h4]
          have h5 : (total + 1 - i - 1) / W = 0 := Nat.div_eq_of_lt (by omega)
          rw [h5]
        · have h3 : total + 1 - i - W + W - 1 = (total + 1 - i - W - 1) + W := by omega
          rw [h3]
          rw [Nat.add_div_right _ hW, Nat.add_div_right _ hW]
          have h4 : total + 1 - i - 1 = (total + 1 - i - W - 1) + W := by omega
          rw [h4, Nat.add_div_right _ hW]
    · rw [roundSizesFrom_eq_nil hcond]
      have h0 : total + 1 - i = 0 := by omega
      rw [h0]
      refine ⟨by simp, ?_⟩
      simp only [List.length_nil]
      exact (Nat.div_eq_of_lt (by omega)).symm

theorem roundSizesFrom_getD (W : ℕ) (hW : 0 < W) :
    ∀ n total i, total + 1 - i ≤ n →
      ∀ k, k < (roundSizesFrom total W i).length →
        (roundSizesFrom total W i).getD k 0 = min W (total + 1 - i - W * k) := by
  intro n
  induction n with
  | zero =>
    intro total i hn k hk
    rw [roundSizesFrom_eq_nil (by omega)] at hk
    simp at hk
  | succ m ih =>
    intro total i hn k hk
    by_cases hcond : 0 < W ∧ i ≤ total
    · rw [roundSizesFrom_eq_cons hcond.1 hcond.2] at hk ⊢
      rcases k with _ | k'
      · simp only [List.getD_cons_zero]
        congr 1
        omega
      · simp only [List.getD_cons_succ]
        have hk' : k' < (roundSizesFrom total W (i + W)).length := by
          simpa using hk
        rw [ih total (i + W) (by omega) k' hk']
        congr 1
        have hmul : W * (k' + 1) = W * k' + W := by ring
        omega
    · rw [roundSizesFrom_eq_nil hcond] at hk
      simp at hk

theorem seqTraceFrom_eq_cons {total i : ℕ} (ok : ℕ → Bool) (hi : i ≤ total) :
    seqTraceFrom total ok i =
      (Action.createCall [i] :: (if ok i then [Action.imageCall i] else []))
        ++ (if i < total then [Action.pause 600] else [])
        ++ seqTraceFrom total ok (i + 1) := by
  rw [seqTraceFrom]
  exact dif_pos hi

theorem seqTraceFrom_eq_nil {total i : ℕ} (ok : ℕ → Bool) (hi : ¬ i ≤ total) :
    seqTraceFrom total ok i = [] := by
  rw [seqTraceFrom]
  exact dif_neg hi

theorem batchedTraceFrom_eq_cons {total W i : ℕ} (ok : ℕ → Bool)
    (hW : 0 < W) (hi : i ≤ total) :
    batchedTraceFrom total W ok i =
      (Action.createCall (List.range' i (min W (total - i + 1)))
          :: ((List.range' i (min W (total - i + 1))).filter ok).map Action.imageCall)
        ++ batchedTraceFrom total W ok (i + W) := by
  rw [batchedTraceFrom]
  exact dif_pos ⟨hW, hi⟩

theorem batchedTraceFrom_eq_nil {total W i : ℕ} (ok : ℕ → Bool)
    (h : ¬(0 < W ∧ i ≤ total)) :
    batchedTraceFrom total W ok i = [] := by
  rw [batchedTraceFrom]
  exact dif_neg h

theorem seq_batched_width_one_aux (total : ℕ) (ok : ℕ → Bool) :
    ∀ n i, total + 1 - i ≤ n →
      (seqTraceFrom total ok i).filter (fun a => !isPause a) =
        batchedTraceFrom total 1 ok i ∧
      (∀ a ∈ batchedTraceFrom total 1 ok i, isPause a = false) ∧
      (seqTraceFrom total ok i).countP isPause = total - i := by
  intro n
  induction n with
  | zero =>
    intro i hn
    rw [seqTraceFrom_eq_nil ok (by omega), batchedTraceFrom_eq_nil ok (by omega)]
    refine ⟨rfl, by simp, ?_⟩
    simp
    omega
  | succ m ih =>
    intro i hn
    by_cases hi : i ≤ total
    · have hrec := ih (i + 1) (by omega)
      rw [seqTraceFrom_eq_cons ok hi, batchedTraceFrom_eq_cons ok (by omega) hi]
      have hmin : min 1 (total - i + 1) = 1 := by omega
      rw [hmin]
      have hrange : List.range' i 1 = [i] := by simp
      rw [hrange]
      refine ⟨?_, ?_, ?_⟩
      · simp only [List.filter_append, List.filter_cons]
        rw [hrec.1]
        cases hok : ok i <;> by_cases hlt : i < total <;>
          simp [hlt, isPause]
      · intro a ha
        simp only [List.mem_append, List.mem_cons] at ha
        rcases ha with (h1 | h2) | h3
        · rw [h1]
          rfl
        · rcases List.mem_map.1 h2 with ⟨b, _, hb⟩
          rw [← hb]
          rfl
        · exact hrec.2.1 a h3
      · simp only [List.countP_append, List.countP_cons, hrec.2.2]
        cases hok : ok i
        · by_cases hlt : i < total
          · simp [hlt, isPause]
            omega
          · simp [hlt, isPause]
            omega
        · by_cases hlt : i < total
          · simp [hlt, isPause]
            omega
          · simp [hlt, isPause]
            omega
    · rw [seqTraceFrom_eq_nil ok hi, batchedTraceFrom_eq_nil ok (by omega)]
      refine ⟨rfl, by simp, ?_⟩
      simp
      omega

/-- C2 as amended: with batch width 1, the batched path performs per product
exactly the create call and (on success) the image call of the sequential
path, in the same order — but it never performs the pacing delay, while the
sequential path performs one `delay(600)` after every product except the
last (`T - 1` pauses in all).  So the two traces agree only after erasing
the pauses (and are equal outright only for `T ≤ 1`). -/
theorem width_one_refinement (total : ℕ) (ok : ℕ → Bool) :
    (seqTrace total ok).filter (fun a => !isPause a) = batchedTrace total 1 ok ∧
    (∀ a ∈ batchedTrace total 1 ok, isPause a = false) ∧
    (seqTrace total ok).countP isPause = total - 1 := by
  have h := seq_batched_width_one_aux total ok (total + 1 - 1) 1 (by omega)
  exact ⟨h.1, h.2.1, h.2.2⟩

/-- Counterexample to C2 as stated: for `T = 2` with both creates
succeeding, the sequential trace contains the pacing delay after product 1,
while the batched width-1 trace does not; the two runs are not behaviorally
identical. -/
theorem width_one_traces_differ :
    seqTrace 2 (fun _ => true) =
      [Action.createCall [1], Action.imageCall 1, Action.pause 600,
       Action.createCall [2], Action.imageCall 2] ∧
    batchedTrace 2 1 (fun _ => true) =
      [Action.createCall [1], Action.imageCall 1,
       Action.createCall [2], Action.imageCall 2] ∧
    seqTrace 2 (fun _ => true) ≠ batchedTrace 2 1 (fun _ => true) := by
  have h1 : seqTrace 2 (fun _ => true) =
      [Action.createCall [1], Action.imageCall 1, Action.pause 600,
       Action.createCall [2], Action.imageCall 2] := by
    rw [seqTrace, seqTraceFrom_eq_cons _ (by decide),
      seqTraceFrom_eq_cons _ (by decide), seqTraceFrom_eq_nil _ (by decide)]
    decide
  have h2 : batchedTrace 2 1 (fun _ => true) =
      [Action.createCall [1], Action.imageCall 1,
       Action.createCall [2], Action.imageCall 2] := by
    rw [batchedTrace, batchedTraceFrom_eq_cons _ (by decide) (by decide),
      batchedTraceFrom_eq_cons _ (by decide) (by decide),
      batchedTraceFrom_eq_nil _ (by decide)]
    decide
  refine ⟨h1, h2, ?_⟩
  rw [h1, h2]
  decide

theorem getOnlineStorePublicationId_cached (env : ℕ → LookupResponse)
    (st : PubState) (h : st.cached.isSome) :
    getOnlineStorePublicationId env st = (st.cached, st) := by
  rcases st with ⟨c, q⟩
  cases c
  · simp at h
  · rfl

theorem seqPubStateAfter_resolved (env : ℕ → LookupResponse)
    (hres : resolvesOnlineStore (env 0) = true) :
    ∀ n, 1 ≤ n → (seqPubStateAfter env n).queriesIssued = 1 ∧
      (seqPubStateAfter env n).cached.isSome := by
  intro n
  induction n with
  | zero => omega
  | succ m ih =>
    intro _
    rcases Nat.eq_zero_or_pos m with hm | hm
    · subst hm
      cases henv : env 0 with
      | transportError => rw [henv, resolvesOnlineStore] at hres; cases hres
      | publications edges =>
        rw [henv, resolvesOnlineStore] at hres
        rcases Option.isSome_iff_exists.1 hres with ⟨pub, hpub⟩
        refine ⟨?_, ?_⟩ <;>
          simp [seqPubStateAfter, getOnlineStorePublicationId, henv, hpub]
    · have hrec := ih hm
      rw [seqPubStateAfter,
        getOnlineStorePublicationId_cached env _ hrec.2]
      exact hrec

/-- C3 as amended: a set memo is returned as-is with no further query (first
conjunct); when the first lookup of the run succeeds in resolving the Online
Store id, a sequential run of any length issues at most one publications
query (second conjunct); and the batched path issues at most one query
regardless, because it performs the lookup once before its loop (third
conjunct).  Without the resolution hypothesis the sequential bound fails —
see the counterexample. -/
theorem publication_lookup_memoization (env : ℕ → LookupResponse)
    (st : PubState) (T : ℕ) (hres : resolvesOnlineStore (env 0) = true) :
    (st.cached.isSome → getOnlineStorePublicationId env st = (st.cached, st)) ∧
    (seqPubStateAfter env T).queriesIssued ≤ 1 ∧
    batchedPubQueries env ≤ 1 := by
  refine ⟨getOnlineStorePublicationId_cached env st, ?_, ?_⟩
  · rcases Nat.eq_zero_or_pos T with hT | hT
    · subst hT
      simp [seqPubStateAfter]
    · rw [(seqPubStateAfter_resolved env hres T hT).1]
  · rw [batchedPubQueries]
    cases henv : env 0 with
    | transportError => simp [getOnlineStorePublicationId, henv]
    | publications edges =>
      cases hfind : edges.find? (fun p => p.name == "Online Store") with
      | none => simp [getOnlineStorePublicationId, henv, hfind]
      | some pub => simp [getOnlineStorePublicationId, henv, hfind]

/-- Witness for C3's amended theorem: a run of three sequential products
against a store whose first lookup answers with an Online Store publication
issues at most one query. -/
theorem publication_lookup_memoization_witness :
    resolvesOnlineStore
      ((fun _ => LookupResponse.publications [⟨"gid-1", "Online Store"⟩]) 0) = true ∧
    (seqPubStateAfter
      (fun _ => LookupResponse.publications [⟨"gid-1", "Online Store"⟩]) 3).queriesIssued ≤ 1 :=
  ⟨by decide,
    (publication_lookup_memoization
      (fun _ => LookupResponse.publications [⟨"gid-1", "Online Store"⟩])
      { cached := none, queriesIssued := 0 } 3 (by decide)).2.1⟩

/-- Counterexample to C3 as stated: when the store reports no Online Store
publication, the memo is never filled, and a sequential run of two products
issues two publications queries — the lookup is not capped at one per run. -/
theorem publication_lookup_requeries :
    (seqPubStateAfter (fun _ => LookupResponse.publications []) 2).queriesIssued = 2 := by
  decide

/-! ## Claims C5 and C6 -/

/-- C5: for every valid count `T ≥ 1` and batch width `W ∈ [1,100]`, the
batched loop executes exactly `ceil(T/W) = (T + W - 1) / W` rounds, round
`k` (counting from 0, after `W * k` drafts have been produced) builds
`min(W, T - W * k)` drafts, and the per-round draft counts sum to `T`. -/
theorem batched_round_partition (T W : ℕ) (hT : 1 ≤ T) (hW : 1 ≤ W) (hW' : W ≤ 100) :
    (roundSizes T W).length = (T + W - 1) / W ∧
    (roundSizes T W).sum = T ∧
    ∀ k, k < (roundSizes T W).length →
      (roundSizes T W).getD k 0 = min W (T - W * k) := by
  have hsl := roundSizesFrom_sum_length W hW (T + 1 - 1) T 1 (by omega)
  refine ⟨?_, ?_, ?_⟩
  · rw [roundSizes, hsl.2]
    have e : T + 1 - 1 + W - 1 = T + W - 1 := by omega
    rw [e]
  · rw [roundSizes, hsl.1]
    omega
  · intro k hk
    rw [roundSizes] at hk ⊢
    rw [roundSizesFrom_getD W hW (T + 1 - 1) T 1 (by omega) k hk]
    have e : T + 1 - 1 - W * k = T - W * k := by omega
    rw [e]

/-- Witness for C5 at `T = 5`, `W = 2`. -/
theorem batched_round_partition_witness :
    1 ≤ 5 ∧ 1 ≤ 2 ∧ 2 ≤ 100 ∧
    ((roundSizes 5 2).length = (5 + 2 - 1) / 2 ∧
     (roundSizes 5 2).sum = 5 ∧
     ∀ k, k < (roundSizes 5 2).length →
       (roundSizes 5 2).getD k 0 = min 2 (5 - 2 * k)) :=
  ⟨by decide, by decide, by decide,
    batched_round_partition 5 2 (by decide) (by decide) (by decide)⟩

theorem runBatchedTallyFrom_eq_step {total W i : ℕ} (env : ℕ → BatchCallResult)
    (k s f : ℕ) (hW : 0 < W) (hi : i ≤ total) :
    runBatchedTallyFrom total W env k i s f =
      runBatchedTallyFrom total W env (k + 1) (i + W)
        (s + tallySucc (createProductBatch (env k) (min W (total - i + 1)) i))
        (f + tallyFail (createProductBatch (env k) (min W (total - i + 1)) i)) := by
  rw [runBatchedTallyFrom]
  exact dif_pos ⟨hW, hi⟩

theorem runBatchedTallyFrom_eq_done {total W i : ℕ} (env : ℕ → BatchCallResult)
    (k s f : ℕ) (h : ¬(0 < W ∧ i ≤ total)) :
    runBatchedTallyFrom total W env k i s f = (s, f) := by
  rw [runBatchedTallyFrom]
  exact dif_neg h

theorem createProductBatch_transport (numInputs startIndex : ℕ) :
    tallySucc (createProductBatch .transportError numInputs startIndex) = 0 ∧
    tallyFail (createProductBatch .transportError numInputs startIndex) = numInputs := by
  constructor
  · simp [createProductBatch, tallySucc, List.countP_map, Function.comp]
  · simp only [createProductBatch, tallyFail, List.countP_map]
    have hfun : ((fun r : BatchResult => !r.success) ∘ fun i : ℕ =>
        ({ success := false, product := none, index := startIndex + i } : BatchResult)) =
        fun _ => true := by
      funext i
      rfl
    rw [hfun, List.countP_true, List.length_range]

theorem createProductBatch_docErrors (errs : List String)
    (slots : ℕ → Option SlotData) (numInputs startIndex : ℕ) :
    createProductBatch (.response (some errs) slots) numInputs startIndex = [] := by
  simp [createProductBatch]

/-- C1 as amended: with a positive batch width and a round still to run
(`i ≤ total`), the batched loop always continues into the next round after
adding the current round's success/failure counts (first conjunct: one
unfolding of the loop, for any outcome of `env k`); a round whose submission
suffers a transport error records a failure for every one of its slots and
no success (second conjunct); but a round whose response carries a
document-level `errors` array yields the empty result list, so that round
adds nothing to either tally (third conjunct). -/
theorem batched_round_error_handling (total W : ℕ) (env : ℕ → BatchCallResult)
    (k i s f : ℕ) (hW : 0 < W) (hi : i ≤ total) :
    (runBatchedTallyFrom total W env k i s f =
      runBatchedTallyFrom total W env (k + 1) (i + W)
        (s + tallySucc (createProductBatch (env k) (min W (total - i + 1)) i))
        (f + tallyFail (createProductBatch (env k) (min W (total - i + 1)) i))) ∧
    (env k = .transportError →
      tallySucc (createProductBatch (env k) (min W (total - i + 1)) i) = 0 ∧
      tallyFail (createProductBatch (env k) (min W (total - i + 1)) i) =
        min W (total - i + 1)) ∧
    (∀ errs slots, env k = .response (some errs) slots →
      createProductBatch (env k) (min W (total - i + 1)) i = []) := by
  refine ⟨runBatchedTallyFrom_eq_step env k s f hW hi, ?_, ?_⟩
  · intro he
    rw [he]
    exact createProductBatch_transport _ _
  · intro errs slots he
    rw [he]
    exact createProductBatch_docErrors _ _ _ _

/-- Witness for C1's amended theorem: a two-product run in one round of
width 2 whose submission dies at the transport layer tallies two failures
for that round. -/
theorem batched_round_error_handling_witness :
    0 < 2 ∧ 1 ≤ 2 ∧
    tallyFail (createProductBatch ((fun _ => BatchCallResult.transportError) 0)
      (min 2 (2 - 1 + 1)) 1) = min 2 (2 - 1 + 1) :=
  ⟨by decide, by decide,
    ((batched_round_error_handling 2 2 (fun _ => BatchCallResult.transportError)
      0 1 0 0 (by decide) (by decide)).2.1 rfl).2⟩

/-- Counterexample to C1 as stated: a run of 2 products in one round of
width 2 whose submission returns a document-level `errors` array ends with
`failureCount = 0`, not the `failureCount = 2` the claim requires (the
empty result list is tallied neither as successes nor as failures). -/
theorem batched_doc_error_drops_tally :
    runBatchedTally 2 2
      (fun _ => BatchCallResult.response (some ["boom"]) (fun _ => none)) = (0, 0) ∧
    runBatchedTally 2 2
      (fun _ => BatchCallResult.response (some ["boom"]) (fun _ => none)) ≠ (0, 2) := by
  have h1 : runBatchedTally 2 2
      (fun _ => BatchCallResult.response (some ["boom"]) (fun _ => none)) = (0, 0) := by
    rw [runBatchedTally]
    rw [runBatchedTallyFrom_eq_step _ _ _ _ (by decide) (by decide)]
    rw [createProductBatch_docErrors]
    rw [runBatchedTallyFrom_eq_done _ _ _ _ (by decide)]
    rfl
  exact ⟨h1, by rw [h1]; decide⟩

theorem vocabElem_injective : ∀ i j : Fin 4, vocabElem i = vocabElem j → i = j := by
  decide

theorem marker_not_in_vocab : "test_product" ∉ tagVocabulary := by
  decide

theorem vocabElem_mem (i : Fin 4) : vocabElem i ∈ tagVocabulary := by
  fin_cases i <;> decide

/-- C6: every draft produced by `generateProductData` carries the marker tag
`test_product` iff the marker flag is enabled, and its tag list always
consists of exactly two distinct tags from the fixed vocabulary (plus the
marker when enabled), with no duplicate tag in one draft. -/
theorem generateProductData_tags (fk : FakerDraw) (flag : Bool)
    (pub : Option String) (now : String) :
    (("test_product" ∈ (generateProductData fk flag pub now).tags) ↔ flag = true) ∧
    (generateProductData fk flag pub now).tags.Nodup ∧
    ∃ a b, a ∈ tagVocabulary ∧ b ∈ tagVocabulary ∧ a ≠ b ∧
      (generateProductData fk flag pub now).tags =
        (if flag then [a, b, "test_product"] else [a, b]) := by
  have hab : vocabElem fk.tagChoice.fst ≠ vocabElem fk.tagChoice.snd := by
    intro h
    exact fk.tagChoice.distinct (vocabElem_injective _ _ h)
  have hamem := vocabElem_mem fk.tagChoice.fst
  have hbmem := vocabElem_mem fk.tagChoice.snd
  have ham : vocabElem fk.tagChoice.fst ≠ "test_product" := by
    intro h
    exact marker_not_in_vocab (h ▸ hamem)
  have hbm : vocabElem fk.tagChoice.snd ≠ "test_product" := by
    intro h
    exact marker_not_in_vocab (h ▸ hbmem)
  have htags : (generateProductData fk flag pub now).tags =
      (if flag then
        [vocabElem fk.tagChoice.fst, vocabElem fk.tagChoice.snd, "test_product"]
       else [vocabElem fk.tagChoice.fst, vocabElem fk.tagChoice.snd]) := by
    cases flag <;> rfl
  refine ⟨?_, ?_, ?_⟩
  · rw [htags]
    cases flag
    · simp [ham.symm, hbm.symm]
    · simp
  · rw [htags]
    cases flag
    · simp [hab]
    · simp [hab, ham, hbm]
  · exact ⟨vocabElem fk.tagChoice.fst, vocabElem fk.tagChoice.snd,
      hamem, hbmem, hab, htags⟩

/-! ## Claims C4, C7, C8, C9, C10 -/

/-- C4 as amended: an absent positional argument defaults the count to 100;
a non-numeric argument (NaN) and an argument parsing to 0 are falsy, so
they also silently default to 100 and do not exit; a negative parse makes
the process exit 1 before any network call; any nonzero parse is used
as the count. -/
theorem count_argument_validation (se : StartupEnv) (args : List String)
    (w : World)
    (henv : se.shopSet = true ∧ se.tokenSet = true)
    (hhelp : args.contains "--help" = false ∧ args.contains "-h" = false) :
    (findPositional args = none → parseTotalArg (findPositional args) = 100) ∧
    (∀ s, findPositional args = some s → jsParseInt s = none →
      parseTotalArg (findPositional args) = 100) ∧
    (∀ s, findPositional args = some s → jsParseInt s = some 0 →
      parseTotalArg (findPositional args) = 100) ∧
    (∀ s n, findPositional args = some s → jsParseInt s = some n → n ≠ 0 →
      parseTotalArg (findPositional args) = n) ∧
    (∀ s n, findPositional args = some s → jsParseInt s = some n → n < 0 →
      programOutcome se args w = ExitOutcome.exited 1) := by
  have hval : ∀ s n, findPositional args = some s → jsParseInt s = some n → n ≠ 0 →
      parseTotalArg (findPositional args) = n := by
    intro s n hs hp hn
    rw [hs]
    simp [parseTotalArg, hp, hn]
  refine ⟨?_, ?_, ?_, hval, ?_⟩
  · intro h
    rw [h, parseTotalArg]
  · intro s hs hp
    rw [hs]
    simp [parseTotalArg, hp]
  · intro s hs hp
    rw [hs]
    simp [parseTotalArg, hp]
  · intro s n hs hp hneg
    have htot := hval s n hs hp (by omega)
    rw [programOutcome, henv.1, henv.2]
    simp only [htot, hhelp.1, hhelp.2, Bool.and_self, Bool.not_true,
      Bool.or_self, Bool.false_eq_true, if_false]
    rw [if_pos (by omega)]

/-- Witness for C4's amended theorem: `node generate.js -7` exits with
status 1. -/
theorem count_argument_validation_witness :
    programOutcome { shopSet := true, tokenSet := true } ["-7"] adversarialWorld =
      ExitOutcome.exited 1 :=
  (count_argument_validation { shopSet := true, tokenSet := true } ["-7"]
      adversarialWorld ⟨rfl, rfl⟩ ⟨by decide, by decide⟩).2.2.2.2
    "-7" (-7) (by decide) (by decide) (by decide)

/-- Counterexample to C4 as stated: `node generate.js 0` presents a
positional argument that is not a positive integer, yet the process does
not exit non-zero — `parseInt("0") || 100` silently yields 100 and the run
proceeds as a 100-product sequential run, exiting 0. -/
theorem zero_count_runs_with_default :
    programOutcome { shopSet := true, tokenSet := true } ["0"] adversarialWorld =
      ExitOutcome.completed 100 (runSequentialTally 100 adversarialWorld) ∧
    exitCode (programOutcome { shopSet := true, tokenSet := true } ["0"]
      adversarialWorld) = 0 := by
  constructor
  · decide
  · decide

theorem imageUrlOf_inj {s t : String} (h : imageUrlOf s = imageUrlOf t) :
    s = t := by
  have hd : (imageUrlOf s).data = (imageUrlOf t).data := by rw [h]
  simp only [imageUrlOf, String.data_append, List.append_assoc] at hd
  exact String.ext (List.append_cancel_right (List.append_cancel_left hd))

/-- C7 as amended: every product's URL is the fixed picsum URL built from
its own freshly drawn token (first conjunct), and two products' URLs
coincide exactly when their drawn tokens coincide (second conjunct) — so
the submitted URLs are pairwise distinct precisely when the random source
happens to produce pairwise distinct tokens, which the script does not
enforce. -/
theorem image_url_distinctness (seeds : ℕ → String) (T i j : ℕ)
    (hi : i < T) (hj : j < T) :
    (seqImageUrls T seeds).getD i "" = imageUrlOf (seeds i) ∧
    ((seqImageUrls T seeds).getD i "" = (seqImageUrls T seeds).getD j "" ↔
      seeds i = seeds j) := by
  have hget : ∀ k, k < T → (seqImageUrls T seeds).getD k "" = imageUrlOf (seeds k) := by
    intro k hk
    rw [seqImageUrls, List.getD_eq_getElem?_getD, List.getElem?_map,
      List.getElem?_range hk]
    rfl
  refine ⟨hget i hi, ?_⟩
  rw [hget i hi, hget j hj]
  exact ⟨fun h => imageUrlOf_inj h, fun h => by rw [h]⟩

/-- Witness for C7's amended theorem at two distinct concrete tokens. -/
theorem image_url_distinctness_witness :
    ((seqImageUrls 2 (fun k => if k = 0 then "abcdefgh" else "ijklmnop")).getD 0 "" =
      (seqImageUrls 2 (fun k => if k = 0 then "abcdefgh" else "ijklmnop")).getD 1 "" ↔
     (fun k : ℕ => if k = 0 then "abcdefgh" else "ijklmnop") 0 =
      (fun k : ℕ => if k = 0 then "abcdefgh" else "ijklmnop") 1) :=
  (image_url_distinctness (fun k => if k = 0 then "abcdefgh" else "ijklmnop")
    2 0 1 (by decide) (by decide)).2

/-- Counterexample to C7 as stated: `faker.string.alphanumeric(8)` carries
no distinctness guarantee across draws, and nothing in the script enforces
one — in the run where the random source yields the token `aaaaaaaa` twice,
the two products reference the same placeholder image URL. -/
theorem duplicate_seed_duplicate_url :
    ¬ (seqImageUrls 2 (fun _ => "aaaaaaaa")).Nodup := by
  decide

theorem collectImageRound_characterization
    (outcomes : List (Settled ImageCallResult)) :
    collectImageRound outcomes =
      ((outcomes.map (fun o => (settledImageData o).cost)).sum,
       outcomes.countP (fun o => (settledImageData o).success)) := by
  have go : ∀ (l : List (Settled ImageCallResult)) (acc : ℕ × ℕ),
      l.foldl
        (fun acc o =>
          let d := settledImageData o
          (acc.1 + jsOrNat d.cost 0, if d.success then acc.2 + 1 else acc.2)) acc =
      (acc.1 + (l.map (fun o => (settledImageData o).cost)).sum,
       acc.2 + l.countP (fun o => (settledImageData o).success)) := by
    intro l
    induction l with
    | nil => intro acc; simp
    | cons o os ih =>
      intro acc
      rw [List.foldl_cons, ih]
      have hcost : jsOrNat (settledImageData o).cost 0 = (settledImageData o).cost := by
        by_cases h : (settledImageData o).cost = 0 <;> simp [jsOrNat, h]
      simp only [List.map_cons, List.sum_cons, List.countP_cons, hcost]
      cases hs : (settledImageData o).success <;>
        simp [hs] <;> omega
  rw [collectImageRound, go]
  simp

/-- C8: the batched image stage launches exactly one attachment call per
job of the round (first conjunct, the fan-out is a positional map over the
jobs) and aggregates by folding over the settled outcome list, so the
round's reported cost is the sum of every outcome's cost and its success
count counts every successful outcome — each outcome contributes whether or
not the others failed (second conjunct), the aggregate is insensitive to
settlement order (third conjunct), a rejected promise is replaced by a
failure record instead of aborting collection (fourth conjunct), and a
response carrying no cost field at all contributes cost 0 rather than an
error, both at extraction and for a successful attachment (fifth and sixth
conjuncts). -/
theorem concurrent_image_round (jobs : List ImageJob)
    (settle : ImageJob → Settled ImageCallResult)
    (outcomes outcomes' : List (Settled ImageCallResult))
    (hperm : outcomes.Perm outcomes') :
    (imageFanout jobs settle).length = jobs.length ∧
    collectImageRound outcomes =
      ((outcomes.map (fun o => (settledImageData o).cost)).sum,
       outcomes.countP (fun o => (settledImageData o).success)) ∧
    collectImageRound outcomes = collectImageRound outcomes' ∧
    settledImageData Settled.rejected = { success := false, cost := 0 } ∧
    imageCostOf none none none = 0 ∧
    (addImageToProduct (ImageResponse.response none (some []) none none none)).cost = 0 := by
  refine ⟨List.length_map _ _, collectImageRound_characterization outcomes, ?_,
    rfl, rfl, rfl⟩
  rw [collectImageRound_characterization outcomes,
    collectImageRound_characterization outcomes']
  rw [(hperm.map (fun o => (settledImageData o).cost)).sum_eq,
    hperm.countP_eq (fun o => (settledImageData o).success)]

/-- Witness for C8 at a round of two jobs, one success and one rejection,
collected in either order. -/
theorem concurrent_image_round_witness :
    collectImageRound
      [Settled.fulfilled { success := true, cost := 5 }, Settled.rejected] =
    collectImageRound
      [Settled.rejected, Settled.fulfilled { success := true, cost := 5 }] :=
  (concurrent_image_round [] (fun _ => Settled.rejected)
    [Settled.fulfilled { success := true, cost := 5 }, Settled.rejected]
    [Settled.rejected, Settled.fulfilled { success := true, cost := 5 }]
    (List.Perm.swap _ _ _)).2.2.1

theorem runBatchedCrashesFrom_eq_step {total W i : ℕ} (env : ℕ → BatchCallResult)
    (k : ℕ) (hW : 0 < W) (hi : i ≤ total) :
    runBatchedCrashesFrom total W env k i =
      (resultsCrash (createProductBatch (env k) (min W (total - i + 1)) i)
        || runBatchedCrashesFrom total W env (k + 1) (i + W)) := by
  rw [runBatchedCrashesFrom]
  exact dif_pos ⟨hW, hi⟩

theorem runBatchedCrashesFrom_eq_false {total W i : ℕ} (env : ℕ → BatchCallResult)
    (k : ℕ) (h : ¬(0 < W ∧ i ≤ total)) :
    runBatchedCrashesFrom total W env k i = false := by
  rw [runBatchedCrashesFrom]
  exact dif_neg h

theorem programOutcome_completes_of (se : StartupEnv) (args : List String)
    (w : World) (hacc : startupAccepts se args = true)
    (hok : args.contains "--batch" = false ∨
      runBatchedCrashes (parseTotalArg (findPositional args)).toNat
        (batchWidthOf args) w.batchCalls = false) :
    exitCode (programOutcome se args w) = 0 := by
  simp only [startupAccepts, Bool.and_eq_true, Bool.not_eq_true',
    Bool.or_eq_true, decide_eq_true_eq] at hacc
  obtain ⟨⟨⟨⟨hs, ht⟩, hhelp⟩, htot⟩, hbatch⟩ := hacc
  rw [programOutcome, hs, ht]
  simp only [Bool.and_self, Bool.not_true, Bool.false_eq_true, if_false, hhelp]
  rw [if_neg (by omega)]
  have hc : (args.contains "--batch" && !batchSizeValid args) = false := by
    rcases hbatch with hb | hb
    · rw [hb]
      rfl
    · rw [hb]
      simp
  simp only [hc, Bool.false_eq_true, if_false]
  have hc2 : (args.contains "--batch"
      && runBatchedCrashes (parseTotalArg (findPositional args)).toNat
        (batchWidthOf args) w.batchCalls) = false := by
    rcases hok with hb | hb
    · rw [hb]
      rfl
    · rw [hb]
      simp
  simp only [hc2, Bool.false_eq_true, if_false]
  rfl

theorem programOutcome_crash_of (se : StartupEnv) (args : List String)
    (w : World) (hacc : startupAccepts se args = true)
    (hb : args.contains "--batch" = true)
    (hcr : runBatchedCrashes (parseTotalArg (findPositional args)).toNat
      (batchWidthOf args) w.batchCalls = true) :
    programOutcome se args w = ExitOutcome.crashed := by
  simp only [startupAccepts, Bool.and_eq_true, Bool.not_eq_true',
    Bool.or_eq_true, decide_eq_true_eq] at hacc
  obtain ⟨⟨⟨⟨hs, ht⟩, hhelp⟩, htot⟩, hbatch⟩ := hacc
  rw [programOutcome, hs, ht]
  simp only [Bool.and_self, Bool.not_true, Bool.false_eq_true, if_false, hhelp]
  rw [if_neg (by omega)]
  have hvalid : batchSizeValid args = true := by
    rcases hbatch with h | h
    · rw [hb] at h
      simp at h
    · exact h
  have hc : (args.contains "--batch" && !batchSizeValid args) = false := by
    rw [hb, hvalid]
    rfl
  simp only [hc, Bool.false_eq_true, if_false]
  simp [hcr]
  exact List.mem_of_elem_eq_true hb

/-- C9 as amended: for a run that passes startup validation, the sequential
path exits 0 for every network behavior — per-product create and image
failures surface only through the printed tally (first conjunct); the
batched path likewise exits 0 whenever no executed round's create response
contains a slot with an empty user-error list but a null product (second
conjunct); and a non-zero exit arises only from a startup-check failure or
from that one crash: the batched loop's `result.product.id` dereference at
line 433 runs outside every try/catch, so a null-product success rejects
the IIFE's promise and the process dies non-zero (third conjunct). -/
theorem exit_status_amended (se : StartupEnv) (args : List String) (w : World) :
    (startupAccepts se args = true → args.contains "--batch" = false →
      exitCode (programOutcome se args w) = 0) ∧
    (startupAccepts se args = true →
      runBatchedCrashes (parseTotalArg (findPositional args)).toNat
        (batchWidthOf args) w.batchCalls = false →
      exitCode (programOutcome se args w) = 0) ∧
    (exitCode (programOutcome se args w) ≠ 0 →
      startupAccepts se args = false ∨
        programOutcome se args w = ExitOutcome.crashed) := by
  refine ⟨fun hacc hb => programOutcome_completes_of se args w hacc (Or.inl hb),
    fun hacc hcr => programOutcome_completes_of se args w hacc (Or.inr hcr), ?_⟩
  intro hne
  cases hacc : startupAccepts se args with
  | false => exact Or.inl rfl
  | true =>
    refine Or.inr ?_
    by_cases hb : args.contains "--batch" = true
    · by_cases hcr : runBatchedCrashes (parseTotalArg (findPositional args)).toNat
          (batchWidthOf args) w.batchCalls = true
      · exact programOutcome_crash_of se args w hacc hb hcr
      · exact absurd (programOutcome_completes_of se args w hacc
          (Or.inr (by simpa using hcr))) hne
    · exact absurd (programOutcome_completes_of se args w hacc
        (Or.inl (by simpa using hb))) hne

/-- Witness for C9's amended theorem: a validated sequential one-product
invocation against a network where every call fails still exits 0. -/
theorem exit_status_amended_witness :
    startupAccepts { shopSet := true, tokenSet := true } ["1"] = true ∧
    ["1"].contains "--batch" = false ∧
    exitCode (programOutcome { shopSet := true, tokenSet := true } ["1"]
      adversarialWorld) = 0 :=
  ⟨by decide, by decide,
    (exit_status_amended { shopSet := true, tokenSet := true } ["1"]
      adversarialWorld).1 (by decide) (by decide)⟩

/-- Counterexample to C9 as stated: `node generate.js 1 --batch` passes
argument validation, yet against a server whose create response flags the
slot as created (`userErrors: []`) while carrying a null `product`, the
batched loop throws at the uncaught `result.product.id` dereference
(line 433); the IIFE's promise rejection is unhandled and the process exits
non-zero — a validated run whose final status is not 0. -/
theorem validated_batched_run_crashes :
    startupAccepts { shopSet := true, tokenSet := true } ["1", "--batch"] = true ∧
    programOutcome { shopSet := true, tokenSet := true } ["1", "--batch"]
      nullProductWorld = ExitOutcome.crashed ∧
    exitCode (programOutcome { shopSet := true, tokenSet := true } ["1", "--batch"]
      nullProductWorld) ≠ 0 := by
  have hcrash : runBatchedCrashes
      (parseTotalArg (findPositional ["1", "--batch"])).toNat
      (batchWidthOf ["1", "--batch"]) nullProductWorld.batchCalls = true := by
    have e1 : (parseTotalArg (findPositional ["1", "--batch"])).toNat = 1 := by decide
    have e2 : batchWidthOf ["1", "--batch"] = 10 := by decide
    rw [e1, e2, runBatchedCrashes,
      runBatchedCrashesFrom_eq_step _ _ (by decide) (by decide)]
    have hres : resultsCrash (createProductBatch (nullProductWorld.batchCalls 0)
        (min 10 (1 - 1 + 1)) 1) = true := by decide
    rw [hres]
    rfl
  have hmain := programOutcome_crash_of { shopSet := true, tokenSet := true }
    ["1", "--batch"] nullProductWorld (by decide) (by decide) hcrash
  refine ⟨by decide, hmain, ?_⟩
  rw [hmain]
  decide

/-- C10: `addImageToProduct` always returns a record object, so the
truthiness test `if (imageAdded)` at line 324 always passes (first
conjunct), and whenever the sequential path prints a `Created:` line it is
the `with image` variant — the `but image failed` branch is unreachable
(second conjunct: the logged flag is never `some false`). -/
theorem image_failed_branch_unreachable (cr : CreateResponse) (ir : ImageResponse) :
    truthy (JsVal.obj (addImageToProduct ir)) = true ∧
    (createProductLoggedWithImage cr ir = none ∨
     createProductLoggedWithImage cr ir = some true) := by
  refine ⟨rfl, ?_⟩
  cases cr with
  | transportError => exact Or.inl rfl
  | response errors pc =>
    cases errors with
    | some e => exact Or.inl (by simp [createProductLoggedWithImage])
    | none =>
      cases pc with
      | none => exact Or.inl (by simp [createProductLoggedWithImage])
      | some sd =>
        by_cases hue : sd.userErrors = []
        · cases hp : sd.product with
          | none => exact Or.inl (by simp [createProductLoggedWithImage, hue, hp])
          | some p =>
            exact Or.inr (by simp [createProductLoggedWithImage, hue, hp, truthy])
        · exact Or.inl (by simp [createProductLoggedWithImage, hue])

end PopulateShopify
